import Mathlib

/-!
Verification of the MCP router (src/mcp_router_final.py): backend registry,
health-check state machine, backend selection, and the two proxy paths.
Machine time is abstracted as `Nat`; probe and forwarding I/O outcomes are
passed in explicitly so every operation is a pure function on router state.
-/

/-- Status of a backend MCP server (`ServerStatus` in the source). -/
inductive ServerStatus
  | HEALTHY
  | UNHEALTHY
  | CHECKING
deriving DecidableEq, Repr

/-- A backend MCP server record (`BackendServer` dataclass). -/
structure BackendServer where
  name : String
  url : String
  status : ServerStatus := ServerStatus.CHECKING
  last_check : Option Nat := none
  last_healthy : Option Nat := none
  consecutive_failures : Nat := 0
deriving DecidableEq, Repr

/-- The registry `self.backends`: a Python dict keyed by `name`, which
preserves insertion order; modelled as a list of records keyed by `.name`. -/
abbrev Registry := List BackendServer

/-- `add_backend`: `self.backends[name] = BackendServer(name=name, url=url)`.
Assigning an existing dict key replaces the value in place (keeping its
position); a new key is appended. The stored record has fresh default state. -/
def add_backend (reg : Registry) (name url : String) : Registry :=
  if reg.any (fun b => b.name = name) then
    reg.map (fun b => if b.name = name then { name := name, url := url } else b)
  else
    reg ++ [{ name := name, url := url }]

/-- `remove_backend`: `if name in self.backends: del self.backends[name]`. -/
def remove_backend (reg : Registry) (name : String) : Registry :=
  if reg.any (fun b => b.name = name) then
    reg.eraseP (fun b => b.name = name)
  else
    reg

/-- Outcome of the probe's HTTP exchange in `_check_backend_health`:
either a transport-level failure (connection error or timeout, i.e. any
exception raised by the client), or a response with a status code and the
sequence of lines the stream yields before ending. -/
inductive ProbeResponse
  | transportError
  | response (status_code : Nat) (lines : List String)
deriving DecidableEq, Repr

/-- The sentinel-scanning loop of `_check_backend_health`:
`async for line in response.aiter_lines(): if line == "event: endpoint": ...
lines_read += 1; if lines_read > 5: break`. Returns whether the sentinel
line was seen before the bound or stream end. -/
def find_endpoint_event : List String → Nat → Bool
  | [], _ => false
  | line :: rest, lines_read =>
    if line = "event: endpoint" then true
    else if lines_read + 1 > 5 then false
    else find_endpoint_event rest (lines_read + 1)

/-- Whether `_check_backend_health` reaches the success branch: the response
status is 200 and the sentinel line is found by the bounded scan; a transport
error, a non-200 status, or scan failure all raise into the except branch. -/
def probe_succeeds : ProbeResponse → Bool
  | ProbeResponse.transportError => false
  | ProbeResponse.response status_code lines =>
    if status_code ≠ 200 then false else find_endpoint_event lines 0

/-- `_check_backend_health` applied to one backend record: `now` is the
probe start time (first `datetime.now()`), `now2` the success time (second
`datetime.now()`), `resp` the probe's I/O outcome. -/
def check_backend_health (b : BackendServer) (now now2 : Nat)
    (resp : ProbeResponse) : BackendServer :=
  let b := { b with last_check := some now }
  if probe_succeeds resp then
    { b with status := ServerStatus.HEALTHY
             last_healthy := some now2
             consecutive_failures := 0 }
  else
    let cf := b.consecutive_failures + 1
    if 3 ≤ cf then
      { b with consecutive_failures := cf, status := ServerStatus.UNHEALTHY }
    else
      { b with consecutive_failures := cf }

/-- `get_healthy_backend(preferred)`: `if preferred and preferred in
self.backends` (Python truthiness: `None` and `""` are both falsy), return
the preferred backend when it is `HEALTHY`; otherwise the first `HEALTHY`
backend in registration order; otherwise `None`. -/
def get_healthy_backend (reg : Registry) (preferred : Option String) :
    Option BackendServer :=
  let fallback := reg.find? (fun b => b.status = ServerStatus.HEALTHY)
  match preferred with
  | some p =>
    if p ≠ "" then
      match reg.find? (fun b => b.name = p) with
      | some b =>
        if b.status = ServerStatus.HEALTHY then some b else fallback
      | none => fallback
    else fallback
  | none => fallback

/-- `_error_stream(message)`: yields the single chunk
`f"event: error\ndata: {message}\n\n"`. -/
def error_stream (message : String) : List String :=
  ["event: error\ndata: " ++ message ++ "\n\n"]

/-- The backend-side interaction seen by `stream_from_backend` in
`proxy_sse`: the connection attempt fails outright, or the backend answers
with a status code and a chunk sequence, `dropped` recording whether the
connection raised mid-stream after those chunks. -/
inductive StreamOutcome
  | connectError
  | response (status_code : Nat) (chunks : List String) (dropped : Bool)
deriving DecidableEq, Repr

/-- The body produced by the `stream_from_backend` generator: a non-200
backend status substitutes the error frame for the body; an exception
(at connect or mid-stream) appends the error frame after whatever was
already yielded. -/
def stream_from_backend : StreamOutcome → List String
  | StreamOutcome.connectError => error_stream "Connection to backend lost"
  | StreamOutcome.response status_code chunks dropped =>
    if status_code ≠ 200 then error_stream "Backend returned error"
    else if dropped then chunks ++ error_stream "Connection to backend lost"
    else chunks

/-- A streaming response as constructed by `proxy_sse`
(`StreamingResponse(...)`, whose default status code is 200). -/
structure SSEResponse where
  status_code : Nat
  media_type : String
  headers : List (String × String)
  body : List String
deriving DecidableEq, Repr

/-- `proxy_sse(request, backend_name)`: select a backend; with none
available answer 404 with the synthetic error stream; otherwise a 200
streaming response tagged with the serving backend's name, whose body is
whatever `stream_from_backend` yields. -/
def proxy_sse (reg : Registry) (backend_name : Option String)
    (interaction : StreamOutcome) : SSEResponse :=
  match get_healthy_backend reg backend_name with
  | none =>
    { status_code := 404
      media_type := "text/event-stream"
      headers := []
      body := error_stream "No healthy MCP servers available" }
  | some backend =>
    { status_code := 200
      media_type := "text/event-stream"
      headers := [("Cache-Control", "no-cache"), ("Connection", "keep-alive"),
                  ("X-Backend-Server", backend.name)]
      body := stream_from_backend interaction }

/-- The backend-side outcome of the forwarded POST in `proxy_messages`:
a transport failure (any exception from the client call), or a backend
response with status code, raw content and headers. -/
inductive ForwardOutcome
  | transportError
  | response (status_code : Nat) (content : String)
      (headers : List (String × String))
deriving DecidableEq, Repr

/-- A message-proxy response body: either a JSON object
(`JSONResponse({...})`) or the backend's raw content (`Response(content=...)`). -/
inductive MsgBody
  | jsonBody (obj : List (String × String))
  | rawBody (content : String)
deriving DecidableEq, Repr

/-- Python's `str.lower()` as used on header names (`k.lower()`):
per-character lowercasing. -/
def str_lower (s : String) : String :=
  String.mk (s.data.map Char.toLower)

/-- A response as returned by `proxy_messages`. -/
structure MsgResponse where
  status_code : Nat
  body : MsgBody
  headers : List (String × String)
deriving DecidableEq, Repr

/-- `proxy_messages(request)`: selection uses no preference; with no healthy
backend, a 404 JSON error; on a transport failure while forwarding, a 502
JSON error; on success the backend's status code and content verbatim, and
its headers minus `content-length` and `transfer-encoding` (compared
lowercased). -/
def proxy_messages (reg : Registry) (fwd : ForwardOutcome) : MsgResponse :=
  match get_healthy_backend reg none with
  | none =>
    { status_code := 404
      body := MsgBody.jsonBody [("error", "No healthy backends available")]
      headers := [] }
  | some _ =>
    match fwd with
    | ForwardOutcome.transportError =>
      { status_code := 502
        body := MsgBody.jsonBody [("error", "Failed to connect to backend")]
        headers := [] }
    | ForwardOutcome.response status_code content hdrs =>
      { status_code := status_code
        body := MsgBody.rawBody content
        headers := hdrs.filter (fun kv =>
          ¬ (str_lower kv.1 = "content-length" ∨
             str_lower kv.1 = "transfer-encoding")) }

/-- One router operation touching the registry: the two management
operations and one health probe of a named backend (a health cycle is a
sequence of probes, one per backend). -/
inductive RouterOp
  | add (name url : String)
  | remove (name : String)
  | probe (name : String) (now now2 : Nat) (resp : ProbeResponse)
deriving DecidableEq, Repr

/-- Apply one operation to the registry. A probe updates exactly the
record it targets via `check_backend_health`. -/
def applyOp (reg : Registry) : RouterOp → Registry
  | RouterOp.add n u => add_backend reg n u
  | RouterOp.remove n => remove_backend reg n
  | RouterOp.probe n now now2 resp =>
    reg.map (fun b => if b.name = n then check_backend_health b now now2 resp else b)

/-- Run a sequence of operations from the initial empty registry
(`self.backends = {}`). -/
def runOps (ops : List RouterOp) : Registry :=
  ops.foldl applyOp []

/-- If no registered backend is `HEALTHY`, selection yields no backend,
whatever the preference. -/
theorem get_healthy_backend_eq_none (reg : Registry) (pref : Option String)
    (h : ∀ b ∈ reg, b.status ≠ ServerStatus.HEALTHY) :
    get_healthy_backend reg pref = none := by
  have hfb : reg.find? (fun b => b.status = ServerStatus.HEALTHY) = none := by
    apply List.find?_eq_none.mpr
    intro b hb
    simpa using h b hb
  unfold get_healthy_backend
  cases pref with
  | none => simpa using hfb
  | some p =>
    by_cases hp : p = ""
    · simp [hp, hfb]
    · simp only [hp, if_neg, ite_not]
      cases hfind : reg.find? (fun b => b.name = p) with
      | none => simp [hp, hfb]
      | some b =>
        have hb := List.mem_of_find?_eq_some hfind
        have hns := h b hb
        simp [hp, hns, hfb]

/-- A selected backend is a member of the registry. -/
theorem get_healthy_backend_mem (reg : Registry) (pref : Option String)
    (b : BackendServer) (h : get_healthy_backend reg pref = some b) :
    b ∈ reg := by
  unfold get_healthy_backend at h
  cases pref with
  | none => exact List.mem_of_find?_eq_some h
  | some p =>
    by_cases hp : p = ""
    · simp [hp] at h
      exact List.mem_of_find?_eq_some h
    · simp only [hp, ne_eq, not_false_eq_true, if_true] at h
      cases hfind : reg.find? (fun x => x.name = p) with
      | none =>
        rw [hfind] at h
        exact List.mem_of_find?_eq_some h
      | some c =>
        rw [hfind] at h
        by_cases hc : c.status = ServerStatus.HEALTHY
        · simp [hc] at h
          exact h ▸ List.mem_of_find?_eq_some hfind
        · simp [hc] at h
          exact List.mem_of_find?_eq_some h

/-- C1: health update on probe outcome. -/
theorem C1_health_update (b : BackendServer) (now now2 : Nat)
    (resp : ProbeResponse) :
    (probe_succeeds resp = true →
      (check_backend_health b now now2 resp).status = ServerStatus.HEALTHY ∧
      (check_backend_health b now now2 resp).last_healthy = some now2 ∧
      (check_backend_health b now now2 resp).consecutive_failures = 0) ∧
    (probe_succeeds resp = false →
      (check_backend_health b now now2 resp).consecutive_failures
        = b.consecutive_failures + 1 ∧
      (3 ≤ b.consecutive_failures + 1 →
        (check_backend_health b now now2 resp).status = ServerStatus.UNHEALTHY) ∧
      (b.consecutive_failures + 1 < 3 →
        (check_backend_health b now now2 resp).status = b.status)) := by
  constructor
  · intro h
    simp [check_backend_health, h]
  · intro h
    refine ⟨?_, ?_, ?_⟩
    · by_cases h3 : 3 ≤ b.consecutive_failures + 1 <;>
        simp [check_backend_health, h, h3]
    · intro h3
      simp [check_backend_health, h, h3]
    · intro h3
      have h3' : ¬ 3 ≤ b.consecutive_failures + 1 := by omega
      simp [check_backend_health, h, h3']

/-- The bounded sentinel scan finds the sentinel exactly when it occurs at
an index `i` with `k + i ≤ 5` (for any start counter `k ≤ 5`). -/
theorem find_endpoint_event_iff :
    ∀ (lines : List String) (k : Nat), k ≤ 5 →
      (find_endpoint_event lines k = true ↔
        ∃ i, k + i ≤ 5 ∧ lines.get? i = some "event: endpoint") := by
  intro lines
  induction lines with
  | nil =>
    intro k hk
    constructor
    · intro h
      simp [find_endpoint_event] at h
    · rintro ⟨i, _, hi⟩
      simp at hi
  | cons line rest ih =>
    intro k hk
    constructor
    · intro h
      unfold find_endpoint_event at h
      by_cases hline : line = "event: endpoint"
      · exact ⟨0, by omega, by simp [hline]⟩
      · rw [if_neg hline] at h
        by_cases hb : k + 1 > 5
        · rw [if_pos hb] at h
          exact absurd h (by simp)
        · rw [if_neg hb] at h
          obtain ⟨i, hi5, hi⟩ := (ih (k + 1) (by omega)).mp h
          exact ⟨i + 1, by omega, by simpa using hi⟩
    · rintro ⟨i, hi5, hi⟩
      unfold find_endpoint_event
      by_cases hline : line = "event: endpoint"
      · simp [hline]
      · rw [if_neg hline]
        match i, hi5, hi with
        | 0, hi5, hi =>
          simp at hi
          exact absurd hi hline
        | i + 1, hi5, hi =>
          have hb : ¬ (k + 1 > 5) := by omega
          rw [if_neg hb]
          exact (ih (k + 1) (by omega)).mpr ⟨i, by omega, by simpa using hi⟩

/-- C3: probe outcome characterization and last_check. -/
theorem C3_probe (b : BackendServer) (now now2 : Nat) (resp : ProbeResponse) :
    (check_backend_health b now now2 resp).last_check = some now ∧
    probe_succeeds ProbeResponse.transportError = false ∧
    ∀ (status_code : Nat) (lines : List String),
      (probe_succeeds (ProbeResponse.response status_code lines) = true ↔
        (status_code = 200 ∧
          ∃ i, i ≤ 5 ∧ lines.get? i = some "event: endpoint")) := by
  refine ⟨?_, rfl, ?_⟩
  · by_cases h : probe_succeeds resp = true
    · simp [check_backend_health, h]
    · by_cases h3 : 3 ≤ b.consecutive_failures + 1 <;>
        simp [check_backend_health, h, h3]
  · intro status_code lines
    unfold probe_succeeds
    by_cases hc : status_code = 200
    · simp only [hc, ne_eq, not_true_eq_false, if_false]
      have := find_endpoint_event_iff lines 0 (by omega)
      simpa using this
    · simp [hc]

/-- Witness for C1 at a concrete record and probe outcomes. -/
theorem C1_health_update_witness :
    (check_backend_health
      { name := "a", url := "u", status := ServerStatus.UNHEALTHY,
        consecutive_failures := 3 } 0 1
      (ProbeResponse.response 200 ["event: endpoint"])).status
        = ServerStatus.HEALTHY ∧
    (check_backend_health { name := "a", url := "u" } 0 1
      ProbeResponse.transportError).consecutive_failures = 1 :=
  ⟨((C1_health_update
      { name := "a", url := "u", status := ServerStatus.UNHEALTHY,
        consecutive_failures := 3 } 0 1
      (ProbeResponse.response 200 ["event: endpoint"])).1 (by decide)).1,
   ((C1_health_update { name := "a", url := "u" } 0 1
      ProbeResponse.transportError).2 (by decide)).1⟩

/-- Witness for C3 at a concrete record and probe outcome. -/
theorem C3_probe_witness :
    probe_succeeds
      (ProbeResponse.response 200 ["a", "b", "event: endpoint"]) = true :=
  ((C3_probe { name := "a", url := "u" } 0 1 ProbeResponse.transportError).2.2
    200 ["a", "b", "event: endpoint"]).mpr
    ⟨rfl, 2, by decide, rfl⟩

/-- C2 counterexample: with backends "a" then "" (both HEALTHY) and
preference "" (given, registered, HEALTHY), selection returns the "a"
backend rather than the preferred one: Python truthiness skips an
empty-string preference. -/
theorem C2_counterexample :
    get_healthy_backend
        [{ name := "a", url := "u", status := ServerStatus.HEALTHY },
         { name := "", url := "v", status := ServerStatus.HEALTHY }]
        (some "")
      = some { name := "a", url := "u", status := ServerStatus.HEALTHY } ∧
    ({ name := "", url := "v", status := ServerStatus.HEALTHY } :
        BackendServer).status = ServerStatus.HEALTHY ∧
    get_healthy_backend
        [{ name := "a", url := "u", status := ServerStatus.HEALTHY },
         { name := "", url := "v", status := ServerStatus.HEALTHY }]
        (some "")
      ≠ some { name := "", url := "v", status := ServerStatus.HEALTHY } := by
  refine ⟨rfl, rfl, ?_⟩
  decide

/-- C2 (amended): selection returns the preferred backend when the
preference is given, non-empty, registered and HEALTHY; otherwise the first
HEALTHY backend in registration order; none when no backend is HEALTHY. -/
theorem C2_select (reg : Registry) (pref : Option String) :
    (∀ p b, pref = some p → p ≠ "" →
      reg.find? (fun x => x.name = p) = some b →
      b.status = ServerStatus.HEALTHY →
      get_healthy_backend reg pref = some b) ∧
    ((¬ ∃ p b, pref = some p ∧ p ≠ "" ∧
        reg.find? (fun x => x.name = p) = some b ∧
        b.status = ServerStatus.HEALTHY) →
      get_healthy_backend reg pref
        = reg.find? (fun x => x.status = ServerStatus.HEALTHY)) ∧
    ((∀ b ∈ reg, b.status ≠ ServerStatus.HEALTHY) →
      get_healthy_backend reg pref = none) := by
  refine ⟨?_, ?_, get_healthy_backend_eq_none reg pref⟩
  · rintro p b rfl hp hfind hst
    simp [get_healthy_backend, hp, hfind, hst]
  · intro hno
    unfold get_healthy_backend
    cases pref with
    | none => simp
    | some p =>
      by_cases hp : p = ""
      · simp [hp]
      · cases hfind : reg.find? (fun x => x.name = p) with
        | none => simp [hp, hfind]
        | some c =>
          by_cases hc : c.status = ServerStatus.HEALTHY
          · exact absurd ⟨p, c, rfl, hp, hfind, hc⟩ hno
          · simp [hp, hfind, hc]

/-- Witness for C2 (amended): a given, non-empty, registered, HEALTHY
preference is honored. -/
theorem C2_select_witness :
    get_healthy_backend
        [{ name := "a", url := "u", status := ServerStatus.HEALTHY },
         { name := "b", url := "v", status := ServerStatus.HEALTHY }]
        (some "b")
      = some { name := "b", url := "v", status := ServerStatus.HEALTHY } :=
  (C2_select
      [{ name := "a", url := "u", status := ServerStatus.HEALTHY },
       { name := "b", url := "v", status := ServerStatus.HEALTHY }]
      (some "b")).1 "b"
    { name := "b", url := "v", status := ServerStatus.HEALTHY }
    rfl (by decide) (by decide) rfl

/-- C4: with no HEALTHY backend, the streaming proxy answers 404 with a
body that is exactly one error frame (two lines then a blank line). -/
theorem C4_sse_no_healthy (reg : Registry) (pref : Option String)
    (interaction : StreamOutcome)
    (h : ∀ b ∈ reg, b.status ≠ ServerStatus.HEALTHY) :
    (proxy_sse reg pref interaction).status_code = 404 ∧
    (proxy_sse reg pref interaction).body
      = ["event: error" ++ "\n"
          ++ "data: No healthy MCP servers available" ++ "\n" ++ "\n"] := by
  have hsel := get_healthy_backend_eq_none reg pref h
  simp [proxy_sse, hsel, error_stream]

/-- Witness for C4: an UNHEALTHY-only registry. -/
theorem C4_sse_no_healthy_witness :
    (proxy_sse
        [{ name := "a", url := "u", status := ServerStatus.UNHEALTHY,
           consecutive_failures := 3 }]
        none StreamOutcome.connectError).status_code = 404 :=
  (C4_sse_no_healthy
    [{ name := "a", url := "u", status := ServerStatus.UNHEALTHY,
       consecutive_failures := 3 }]
    none StreamOutcome.connectError (by decide)).1

/-- C5: the message proxy answers 404 with a JSON error when nothing is
HEALTHY, and 502 with a JSON error when forwarding to the selected backend
fails at the transport level; both are ordinary responses, not faults. -/
theorem C5_messages_errors (reg : Registry) (fwd : ForwardOutcome) :
    ((∀ b ∈ reg, b.status ≠ ServerStatus.HEALTHY) →
      proxy_messages reg fwd
        = { status_code := 404,
            body := MsgBody.jsonBody [("error", "No healthy backends available")],
            headers := [] }) ∧
    (∀ b, get_healthy_backend reg none = some b →
      proxy_messages reg ForwardOutcome.transportError
        = { status_code := 502,
            body := MsgBody.jsonBody [("error", "Failed to connect to backend")],
            headers := [] }) := by
  constructor
  · intro h
    have hsel := get_healthy_backend_eq_none reg none h
    simp [proxy_messages, hsel]
  · intro b hb
    simp [proxy_messages, hb]

/-- Witness for C5: both error paths at concrete registries. -/
theorem C5_messages_errors_witness :
    (proxy_messages [] ForwardOutcome.transportError).status_code = 404 ∧
    (proxy_messages
        [{ name := "a", url := "u", status := ServerStatus.HEALTHY }]
        ForwardOutcome.transportError).status_code = 502 := by
  constructor
  · rw [(C5_messages_errors [] ForwardOutcome.transportError).1 (by decide)]
  · rw [(C5_messages_errors
      [{ name := "a", url := "u", status := ServerStatus.HEALTHY }]
      ForwardOutcome.transportError).2
      { name := "a", url := "u", status := ServerStatus.HEALTHY } rfl]

/-- C6: a successful forward keeps status and body verbatim and copies
exactly the backend headers whose lowercased name is neither
content-length nor transfer-encoding. -/
theorem C6_header_filtering (reg : Registry) (b : BackendServer)
    (status_code : Nat) (content : String) (hdrs : List (String × String))
    (hb : get_healthy_backend reg none = some b) :
    (proxy_messages reg
        (ForwardOutcome.response status_code content hdrs)).status_code
      = status_code ∧
    (proxy_messages reg
        (ForwardOutcome.response status_code content hdrs)).body
      = MsgBody.rawBody content ∧
    ∀ kv : String × String,
      (kv ∈ (proxy_messages reg
          (ForwardOutcome.response status_code content hdrs)).headers ↔
        (kv ∈ hdrs ∧ str_lower kv.1 ≠ "content-length" ∧
          str_lower kv.1 ≠ "transfer-encoding")) := by
  refine ⟨by simp [proxy_messages, hb], by simp [proxy_messages, hb], ?_⟩
  intro kv
  simp [proxy_messages, hb, List.mem_filter]

/-- Witness for C6: a backend response carrying framing headers in mixed
case loses exactly those headers. -/
theorem C6_header_filtering_witness :
    (proxy_messages
        [{ name := "a", url := "u", status := ServerStatus.HEALTHY }]
        (ForwardOutcome.response 201 "ok"
          [("Content-Length", "5"), ("X-Id", "7"),
           ("Transfer-Encoding", "chunked")])).status_code = 201 ∧
    ¬ (("Content-Length", "5") ∈ (proxy_messages
        [{ name := "a", url := "u", status := ServerStatus.HEALTHY }]
        (ForwardOutcome.response 201 "ok"
          [("Content-Length", "5"), ("X-Id", "7"),
           ("Transfer-Encoding", "chunked")])).headers) ∧
    ("X-Id", "7") ∈ (proxy_messages
        [{ name := "a", url := "u", status := ServerStatus.HEALTHY }]
        (ForwardOutcome.response 201 "ok"
          [("Content-Length", "5"), ("X-Id", "7"),
           ("Transfer-Encoding", "chunked")])).headers := by
  have h := C6_header_filtering
    [{ name := "a", url := "u", status := ServerStatus.HEALTHY }]
    { name := "a", url := "u", status := ServerStatus.HEALTHY }
    201 "ok"
    [("Content-Length", "5"), ("X-Id", "7"), ("Transfer-Encoding", "chunked")]
    rfl
  refine ⟨h.1, ?_, ?_⟩
  · intro hmem
    have := (h.2.2 ("Content-Length", "5")).mp hmem
    revert this
    decide
  · exact (h.2.2 ("X-Id", "7")).mpr (by decide)

/-- C7: a fresh record starts at CHECKING; a completed probe never sets a
non-CHECKING status back to CHECKING; remove never rewrites surviving
records; add leaves every record either untouched or replaced by a fresh
one (a new record whose own probes have not yet run). -/
theorem C7_no_revert_to_checking (b : BackendServer) (now now2 : Nat)
    (resp : ProbeResponse) (reg : Registry) (n u : String) :
    ({ name := n, url := u } : BackendServer).status = ServerStatus.CHECKING ∧
    ((check_backend_health b now now2 resp).status = ServerStatus.CHECKING →
      b.status = ServerStatus.CHECKING) ∧
    (∀ x ∈ remove_backend reg n, x ∈ reg) ∧
    (∀ x ∈ add_backend reg n u,
      x ∈ reg ∨ x = { name := n, url := u }) := by
  refine ⟨rfl, ?_, ?_, ?_⟩
  · intro h
    by_cases hs : probe_succeeds resp = true
    · simp [check_backend_health, hs] at h
    · by_cases h3 : 3 ≤ b.consecutive_failures + 1
      · simp [check_backend_health, hs, h3] at h
      · simpa [check_backend_health, hs, h3] using h
  · intro x hx
    unfold remove_backend at hx
    by_cases ha : reg.any (fun c => c.name = n)
    · rw [if_pos ha] at hx
      exact List.mem_of_mem_eraseP hx
    · rwa [if_neg ha] at hx
  · intro x hx
    unfold add_backend at hx
    by_cases ha : reg.any (fun c => c.name = n)
    · rw [if_pos ha] at hx
      obtain ⟨y, hy, hxy⟩ := List.mem_map.mp hx
      by_cases hyn : y.name = n
      · right
        simp [hyn] at hxy
        exact hxy.symm
      · left
        simp [hyn] at hxy
        exact hxy ▸ hy
    · rw [if_neg ha] at hx
      rcases List.mem_append.mp hx with h | h
      · exact Or.inl h
      · exact Or.inr (by simpa using h)

/-- Witness for C7. -/
theorem C7_no_revert_to_checking_witness :
    (check_backend_health
        { name := "a", url := "u", status := ServerStatus.HEALTHY } 0 1
        ProbeResponse.transportError).status = ServerStatus.CHECKING →
      False := by
  intro h
  have := (C7_no_revert_to_checking
    { name := "a", url := "u", status := ServerStatus.HEALTHY } 0 1
    ProbeResponse.transportError [] "a" "u").2.1 h
  simp at this

/-- With unique names, membership after `remove_backend` is membership in
the original registry with a different name. -/
theorem mem_remove_backend (reg : Registry) (n : String)
    (hU : (reg.map (fun b => b.name)).Nodup) (b : BackendServer) :
    b ∈ remove_backend reg n ↔ (b ∈ reg ∧ b.name ≠ n) := by
  induction reg with
  | nil => simp [remove_backend]
  | cons hd tl ih =>
    simp only [List.map_cons, List.nodup_cons, List.mem_map] at hU
    obtain ⟨hhd, htl⟩ := hU
    by_cases hn : hd.name = n
    · have hany : (hd :: tl).any (fun c => c.name = n) = true := by
        simp [hn]
      rw [remove_backend, if_pos hany, List.eraseP_cons_of_pos (by simp [hn])]
      constructor
      · intro hb
        have hb' : b.name ≠ n := by
          intro hbn
          exact hhd ⟨b, hb, by rw [hbn, hn]⟩
        exact ⟨List.mem_cons_of_mem hd hb, hb'⟩
      · rintro ⟨hb, hbn⟩
        rcases List.mem_cons.mp hb with rfl | hb
        · exact absurd hn hbn
        · exact hb
    · by_cases hany : tl.any (fun c => c.name = n)
      · have hany' : (hd :: tl).any (fun c => c.name = n) = true := by
          simp only [List.any_cons, Bool.or_eq_true]
          exact Or.inr hany
        rw [remove_backend, if_pos hany', List.eraseP_cons_of_neg (by simp [hn])]
        have ihtl : b ∈ remove_backend tl n ↔ (b ∈ tl ∧ b.name ≠ n) := ih htl
        rw [remove_backend, if_pos hany] at ihtl
        constructor
        · intro hb
          rcases List.mem_cons.mp hb with rfl | hb
          · exact ⟨List.mem_cons_self _ _, hn⟩
          · obtain ⟨h1, h2⟩ := ihtl.mp hb
            exact ⟨List.mem_cons_of_mem hd h1, h2⟩
        · rintro ⟨hb, hbn⟩
          rcases List.mem_cons.mp hb with rfl | hb
          · exact List.mem_cons_self _ _
          · exact List.mem_cons_of_mem hd (ihtl.mpr ⟨hb, hbn⟩)
      · have hany' : ¬ (hd :: tl).any (fun c => c.name = n) = true := by
          simp only [List.any_cons, Bool.or_eq_true]
          rintro (h | h)
          · exact hn (by simpa using h)
          · exact hany h
        rw [remove_backend, if_neg hany']
        constructor
        · intro hb
          refine ⟨hb, ?_⟩
          rcases List.mem_cons.mp hb with rfl | hb
          · exact hn
          · intro hbn
            apply hany
            simp only [List.any_eq_true]
            exact ⟨b, hb, by simp [hbn]⟩
        · exact fun h => h.1

/-- C8: remove deletes the named entry if present (and only it), is a
no-op otherwise, and a removed name is never selected afterwards. -/
theorem C8_remove (reg : Registry) (n : String)
    (hU : (reg.map (fun b => b.name)).Nodup) :
    ((∀ b ∈ reg, b.name ≠ n) → remove_backend reg n = reg) ∧
    (∀ b, b ∈ remove_backend reg n ↔ (b ∈ reg ∧ b.name ≠ n)) ∧
    (∀ pref b, get_healthy_backend (remove_backend reg n) pref = some b →
      b.name ≠ n) := by
  refine ⟨?_, fun b => mem_remove_backend reg n hU b, ?_⟩
  · intro h
    have hany : ¬ reg.any (fun c => c.name = n) = true := by
      simp only [List.any_eq_true]
      rintro ⟨c, hc, hcn⟩
      exact h c hc (by simpa using hcn)
    rw [remove_backend, if_neg hany]
  · intro pref b hsel
    have hb := get_healthy_backend_mem _ pref b hsel
    exact ((mem_remove_backend reg n hU b).mp hb).2

/-- Witness for C8 at a two-backend registry: the removed backend is no
longer a member. -/
theorem C8_remove_witness :
    ({ name := "b", url := "v", status := ServerStatus.HEALTHY } :
        BackendServer) ∉
      remove_backend
        [{ name := "a", url := "u", status := ServerStatus.HEALTHY },
         { name := "b", url := "v", status := ServerStatus.HEALTHY }] "b" := by
  intro h
  exact (((C8_remove
    [{ name := "a", url := "u", status := ServerStatus.HEALTHY },
     { name := "b", url := "v", status := ServerStatus.HEALTHY }] "b"
    (by decide)).2.1 _).mp h).2 rfl

/-- A single health update preserves the status/counter invariant. -/
theorem check_backend_health_inv (b : BackendServer) (now now2 : Nat)
    (resp : ProbeResponse)
    (h : b.status = ServerStatus.UNHEALTHY ↔ 3 ≤ b.consecutive_failures) :
    ((check_backend_health b now now2 resp).status = ServerStatus.UNHEALTHY ↔
      3 ≤ (check_backend_health b now now2 resp).consecutive_failures) := by
  by_cases hs : probe_succeeds resp = true
  · simp [check_backend_health, hs]
  · by_cases h3 : 3 ≤ b.consecutive_failures + 1
    · simp [check_backend_health, hs, h3]
    · simp only [check_backend_health, hs, Bool.false_eq_true, if_false,
        if_neg h3]
      constructor
      · intro hu
        have := h.mp hu
        omega
      · intro hc
        omega

/-- Every record in a reachable registry satisfies the status/counter
invariant. -/
theorem runOps_inv (ops : List RouterOp) :
    ∀ reg : Registry,
      (∀ b ∈ reg, b.status = ServerStatus.UNHEALTHY ↔
        3 ≤ b.consecutive_failures) →
      ∀ b ∈ List.foldl applyOp reg ops,
        b.status = ServerStatus.UNHEALTHY ↔ 3 ≤ b.consecutive_failures := by
  induction ops with
  | nil => intro reg hreg b hb; exact hreg b hb
  | cons op rest ih =>
    intro reg hreg b hb
    refine ih (applyOp reg op) ?_ b hb
    intro c hc
    cases op with
    | add n u =>
      simp only [applyOp] at hc
      unfold add_backend at hc
      by_cases ha : reg.any (fun x => x.name = n)
      · rw [if_pos ha] at hc
        obtain ⟨y, hy, hxy⟩ := List.mem_map.mp hc
        by_cases hyn : y.name = n
        · simp only [hyn, if_pos rfl] at hxy
          rw [← hxy]
          simp
        · rw [if_neg hyn] at hxy
          exact hxy ▸ hreg y hy
      · rw [if_neg ha] at hc
        rcases List.mem_append.mp hc with hcm | hcm
        · exact hreg c hcm
        · have : c = { name := n, url := u } := by simpa using hcm
          rw [this]
          simp
    | remove n =>
      simp only [applyOp] at hc
      unfold remove_backend at hc
      by_cases ha : reg.any (fun x => x.name = n)
      · rw [if_pos ha] at hc
        exact hreg c (List.mem_of_mem_eraseP hc)
      · rw [if_neg ha] at hc
        exact hreg c hc
    | probe n now now2 resp =>
      simp only [applyOp] at hc
      obtain ⟨y, hy, hxy⟩ := List.mem_map.mp hc
      by_cases hyn : y.name = n
      · rw [if_pos hyn] at hxy
        exact hxy ▸ check_backend_health_inv y now now2 resp (hreg y hy)
      · rw [if_neg hyn] at hxy
        exact hxy ▸ hreg y hy

/-- C9: in every registry reachable by add, remove and probe operations,
a backend is UNHEALTHY exactly when it has accumulated at least 3
consecutive failures; equivalently a non-UNHEALTHY backend has at most 2. -/
theorem C9_unhealthy_iff (ops : List RouterOp) (b : BackendServer)
    (hb : b ∈ runOps ops) :
    (b.status = ServerStatus.UNHEALTHY ↔ 3 ≤ b.consecutive_failures) ∧
    (b.status ≠ ServerStatus.UNHEALTHY → b.consecutive_failures ≤ 2) := by
  have hinv := runOps_inv ops [] (by simp) b hb
  refine ⟨hinv, ?_⟩
  intro hne
  by_contra hgt
  exact hne (hinv.mpr (by omega))

/-- Witness for C9: after add and three failing probes the backend is
UNHEALTHY with 3 consecutive failures. -/
theorem C9_unhealthy_iff_witness :
    ∃ b ∈ runOps
      [RouterOp.add "a" "u",
       RouterOp.probe "a" 0 0 ProbeResponse.transportError,
       RouterOp.probe "a" 1 1 ProbeResponse.transportError,
       RouterOp.probe "a" 2 2 ProbeResponse.transportError],
      b.status = ServerStatus.UNHEALTHY ∧ 3 ≤ b.consecutive_failures := by
  refine ⟨{ name := "a", url := "u", status := ServerStatus.UNHEALTHY,
            last_check := some 2, consecutive_failures := 3 }, ?_, ?_, ?_⟩
  · decide
  · rfl
  · exact (C9_unhealthy_iff
      [RouterOp.add "a" "u",
       RouterOp.probe "a" 0 0 ProbeResponse.transportError,
       RouterOp.probe "a" 1 1 ProbeResponse.transportError,
       RouterOp.probe "a" 2 2 ProbeResponse.transportError]
      { name := "a", url := "u", status := ServerStatus.UNHEALTHY,
        last_check := some 2, consecutive_failures := 3 }
      (by decide)).1.mp rfl

/-- C10: once a healthy backend is selected, the streaming response is a
200 carrying the X-Backend-Server header; backend-side trouble (non-200
status, connect failure, or a mid-stream drop) only changes the body,
which carries the in-band error frame. -/
theorem C10_sse_selected (reg : Registry) (pref : Option String)
    (interaction : StreamOutcome) (b : BackendServer)
    (hb : get_healthy_backend reg pref = some b) :
    (proxy_sse reg pref interaction).status_code = 200 ∧
    ("X-Backend-Server", b.name) ∈ (proxy_sse reg pref interaction).headers ∧
    (∀ status_code chunks dropped,
      interaction = StreamOutcome.response status_code chunks dropped →
      status_code ≠ 200 →
      (proxy_sse reg pref interaction).body
        = error_stream "Backend returned error") ∧
    (∀ chunks,
      interaction = StreamOutcome.response 200 chunks true →
      (proxy_sse reg pref interaction).body
        = chunks ++ error_stream "Connection to backend lost") ∧
    (interaction = StreamOutcome.connectError →
      (proxy_sse reg pref interaction).body
        = error_stream "Connection to backend lost") := by
  refine ⟨by simp [proxy_sse, hb], by simp [proxy_sse, hb], ?_, ?_, ?_⟩
  · rintro status_code chunks dropped rfl hne
    simp [proxy_sse, hb, stream_from_backend, hne]
  · rintro chunks rfl
    simp [proxy_sse, hb, stream_from_backend]
  · rintro rfl
    simp [proxy_sse, hb, stream_from_backend]

/-- Witness for C10: a healthy backend whose stream drops mid-way. -/
theorem C10_sse_selected_witness :
    (proxy_sse
        [{ name := "a", url := "u", status := ServerStatus.HEALTHY }]
        none (StreamOutcome.response 200 ["data: x\n\n"] true)).status_code
      = 200 ∧
    (proxy_sse
        [{ name := "a", url := "u", status := ServerStatus.HEALTHY }]
        none (StreamOutcome.response 200 ["data: x\n\n"] true)).body
      = ["data: x\n\n"] ++ error_stream "Connection to backend lost" := by
  have h := C10_sse_selected
    [{ name := "a", url := "u", status := ServerStatus.HEALTHY }]
    none (StreamOutcome.response 200 ["data: x\n\n"] true)
    { name := "a", url := "u", status := ServerStatus.HEALTHY } rfl
  exact ⟨h.1, h.2.2.2.1 ["data: x\n\n"] rfl⟩
